import Mathlib

/-!
Verification development for the loosh-farm text-processing and scoring
pipeline.  The Python sources under `src/` are shallowly embedded:

* Python `str` values become `List Char` (ASCII subset; the repository's
  regular expressions and canonicalization are ASCII-oriented).
* Python `float` arithmetic becomes exact arithmetic in `ℚ`; the builtin
  `round(x, n)` (round-half-to-even) becomes `pyRound n`.
* Python `dict`s become insertion-ordered association lists with
  `dictGet` playing the role of `dict.get(key, default)`.
* The SHA-256 content digest of `Deduplicator._content_hash` is modelled
  by the canonicalized string itself - an injective (collision-free)
  abstraction of a cryptographic digest.
* `html.unescape`, a Python standard-library call external to this
  repository, is modelled as an explicit function parameter of the
  cleaner.
-/

namespace LooshFarm

/-- Python strings as lists of characters. -/
abbrev Str := List Char

/-- Python dicts as insertion-ordered association lists. -/
abbrev Dict (α : Type) := List (String × α)

/-- `d.get(k, default)` on a Python dict. -/
def dictGet {α : Type} (d : Dict α) (k : String) (default : α) : α :=
  match d.find? (fun p => p.1 = k) with
  | some p => p.2
  | none => default

/-- Python `round` to an integer: round half to even. -/
def pyRoundInt (q : ℚ) : ℤ :=
  if q - ⌊q⌋ = 1 / 2 then (if 2 ∣ ⌊q⌋ then ⌊q⌋ else ⌊q⌋ + 1) else round q

/-- Python `round(q, ndigits)`. -/
def pyRound (ndigits : ℕ) (q : ℚ) : ℚ :=
  (pyRoundInt (q * 10 ^ ndigits) : ℚ) / 10 ^ ndigits

/-- The characters matched by the regex class `\s` (ASCII). -/
def isPySpace (c : Char) : Bool :=
  c = '\x20' || c = '\t' || c = '\n' || c = '\r' || c = '\x0b' || c = '\x0c'

/-- The characters matched by the regex class `\w` (ASCII). -/
def isWordChar (c : Char) : Bool :=
  c.isAlpha || c.isDigit || c = '_'

/-- Python `str.strip()`: drop leading and trailing whitespace. -/
def pyStrip (s : Str) : Str :=
  (((s.dropWhile isPySpace).reverse).dropWhile isPySpace).reverse

/-- Scanner for the substitution of the regex `\s+` by a single space:
`prevSpace` records whether the previous character belonged to a
whitespace run (whose single replacement space was already emitted). -/
def collapseWsAux (prevSpace : Bool) : Str → Str
  | [] => []
  | c :: rest =>
    if isPySpace c then
      if prevSpace then collapseWsAux true rest
      else '\x20' :: collapseWsAux true rest
    else c :: collapseWsAux false rest

/-- Substitution of the regex `\s+` by a single space
(`_MULTI_SPACE_RE.sub(" ", text)` in `cleaner.py` and `dedup.py`): each
maximal whitespace run becomes one space. -/
def collapseWs (s : Str) : Str :=
  collapseWsAux false s

/-! ## `src/processors/cleaner.py` -/

/-- Substitution of `_HTML_TAG_RE = <[^>]+>` by a single space: each
maximal occurrence of `<`, one or more non-`>` characters, `>` becomes
one space.  When the recursion takes the matched branch the scanner
continues right after the closing `>`; `rest.drop (inner.length)` skips
the inner characters and that `>` (`inner.length + 1` characters of
`rest` counting the `>`, reached via `drop` on `rest` after consuming
`<`). -/
def stripHtmlTagsAux : ℕ → Str → Str
  | _, [] => []
  | 0, s => s
  | fuel + 1, c :: rest =>
    if c = '<' then
      let inner := rest.takeWhile (fun d => d ≠ '>')
      if inner.length = 0 ∨ inner.length = rest.length then
        c :: stripHtmlTagsAux fuel rest
      else
        '\x20' :: stripHtmlTagsAux fuel (rest.drop (inner.length + 1))
    else c :: stripHtmlTagsAux fuel rest

/-- The scanner consumes at least one character per step, so fuel equal
to the input length always suffices (the `0, s => s` fallback is never
reached with a non-empty remainder). -/
def stripHtmlTags (s : Str) : Str :=
  stripHtmlTagsAux s.length s

/-- Length of the match of `_URL_RE = https?://\S+|www\.\S+` at the head
of `s`, if any. -/
def urlMatchLength (s : Str) : Option ℕ :=
  if ("https://".toList).isPrefixOf s then
    let k := ((s.drop 8).takeWhile (fun c => ¬ isPySpace c)).length
    if 0 < k then some (8 + k) else none
  else if ("http://".toList).isPrefixOf s then
    let k := ((s.drop 7).takeWhile (fun c => ¬ isPySpace c)).length
    if 0 < k then some (7 + k) else none
  else if ("www.".toList).isPrefixOf s then
    let k := ((s.drop 4).takeWhile (fun c => ¬ isPySpace c)).length
    if 0 < k then some (4 + k) else none
  else none

def removeUrlsAux : ℕ → Str → Str
  | _, [] => []
  | 0, s => s
  | fuel + 1, c :: rest =>
    match urlMatchLength (c :: rest) with
    | some k => removeUrlsAux fuel (rest.drop (k - 1))
    | none => c :: removeUrlsAux fuel rest

/-- Substitution of `_URL_RE` by the empty string.  `urlMatchLength`
always returns at least 5, so recursing on `rest.drop (k - 1)` continues
right after the match; as the scanner consumes at least one character
per step, fuel equal to the input length always suffices. -/
def removeUrls (s : Str) : Str :=
  removeUrlsAux s.length s

/-- The allow-list of `_SPECIAL_CHARS_RE = [^\w\s.,!?;:'\"-]`. -/
def isAllowedChar (c : Char) : Bool :=
  isWordChar c || isPySpace c || c = '.' || c = ',' || c = '!' || c = '?' ||
    c = ';' || c = ':' || c = Char.ofNat 39 || c = Char.ofNat 34 || c = '-'

/-- Substitution of `_SPECIAL_CHARS_RE` by a single space. -/
def removeSpecialChars (s : Str) : Str :=
  s.map (fun c => if isAllowedChar c then c else '\x20')

/-- `TextCleaner.__init__` configuration. -/
structure TextCleaner where
  min_length : ℕ := 10
  max_length : ℕ := 5000

/-- `TextCleaner.clean`.  `unescape` stands for the external
`html.unescape` standard-library call. -/
def TextCleaner.clean (tc : TextCleaner) (unescape : Str → Str) (text : Str) : Option Str :=
  if text = [] then none
  else
    let t1 := unescape text
    let t2 := stripHtmlTags t1
    let t3 := removeUrls t2
    let t4 := removeSpecialChars t3
    let t5 := pyStrip (collapseWs t4)
    let t6 := if tc.max_length < t5.length then t5.take tc.max_length else t5
    if t6.length < tc.min_length then none else some t6

/-- `TextCleaner.clean_batch`: clean each text, dropping `None` results. -/
def TextCleaner.clean_batch (tc : TextCleaner) (unescape : Str → Str)
    (texts : List Str) : List Str :=
  texts.filterMap (fun t => tc.clean unescape t)

/-! ## `src/collectors/base.py` (data model only) -/

/-- `CollectedItem` (the network-facing fields `url`, `published` and
`metadata` are opaque to the processing pipeline and not modelled). -/
structure CollectedItem where
  text : Str
  source_name : String
  source_category : String
  title : Option Str := none
deriving DecidableEq

/-- `CollectedItem.combined_text`: title and text joined by a space,
each contributing only when truthy (non-`None` and non-empty). -/
def CollectedItem.combined_text (it : CollectedItem) : Str :=
  let parts : List Str :=
    (match it.title with
     | some t => if t ≠ [] then [t] else []
     | none => []) ++ (if it.text ≠ [] then [it.text] else [])
  List.intercalate ['\x20'] parts

/-! ## `src/processors/dedup.py` -/

/-- `Deduplicator._normalize_for_hash`: lowercase, replace every
character outside `[a-z0-9 ]` by a space, collapse whitespace, strip. -/
def normalize_for_hash (text : Str) : Str :=
  let lowered := text.map Char.toLower
  let replaced := lowered.map (fun c =>
    if ('a' ≤ c ∧ c ≤ 'z') ∨ ('0' ≤ c ∧ c ≤ '9') ∨ c = '\x20' then c else '\x20')
  pyStrip (collapseWs replaced)

/-- `Deduplicator._content_hash`: the SHA-256 digest of the canonicalized
string, modelled by the canonicalized string itself (an injective
abstraction of the digest). -/
def content_hash (text : Str) : Str :=
  normalize_for_hash text

/-- `Deduplicator._ngram_fingerprint` with the default `n = 3`: the set
of contiguous 3-character substrings of the canonicalized string, or the
singleton of the whole string when it is shorter than 3 characters. -/
def ngram_fingerprint (text : Str) : Finset Str :=
  let normalized := normalize_for_hash text
  if normalized.length < 3 then {normalized}
  else ((List.range (normalized.length - 3 + 1)).map
    (fun i => (normalized.drop i).take 3)).toFinset

/-- `Deduplicator._jaccard_similarity`. -/
def jaccard_similarity (set_a set_b : Finset Str) : ℚ :=
  if set_a = ∅ ∨ set_b = ∅ then 0
  else if 0 < (set_a ∪ set_b).card then
    ((set_a ∩ set_b).card : ℚ) / ((set_a ∪ set_b).card : ℚ)
  else 0

/-- `Deduplicator`: the similarity threshold plus the only instance
state, `_seen_hashes`. -/
structure Deduplicator where
  similarity_threshold : ℚ := 17 / 20
  seen_hashes : Finset Str := ∅

/-- The item loop of `Deduplicator.deduplicate`.  `fps` is the
`fingerprints` list, which the method initializes to `[]` on every call;
`seen` is the instance-level `_seen_hashes` set. -/
def dedupGo (threshold : ℚ) (seen : Finset Str) (fps : List (Finset Str)) :
    List CollectedItem → Finset Str × List CollectedItem
  | [] => (seen, [])
  | item :: rest =>
    let combined := item.combined_text
    if pyStrip combined = [] then dedupGo threshold seen fps rest
    else if content_hash combined ∈ seen then dedupGo threshold seen fps rest
    else
      let fp := ngram_fingerprint combined
      if ∃ existing_fp ∈ fps, threshold ≤ jaccard_similarity fp existing_fp then
        dedupGo threshold seen fps rest
      else
        let r := dedupGo threshold (insert (content_hash combined) seen) (fps ++ [fp]) rest
        (r.1, item :: r.2)

/-- `Deduplicator.deduplicate`: returns the updated instance (the
mutation of `_seen_hashes`) together with the list of unique items. -/
def Deduplicator.deduplicate (d : Deduplicator) (items : List CollectedItem) :
    Deduplicator × List CollectedItem :=
  let r := dedupGo d.similarity_threshold d.seen_hashes [] items
  ({ d with seen_hashes := r.1 }, r.2)

/-- `Deduplicator.reset`: clear `_seen_hashes`. -/
def Deduplicator.reset (d : Deduplicator) : Deduplicator :=
  { d with seen_hashes := ∅ }

/-! ## `src/models/emotion.py` (lexicon strategy) -/

/-- `EMOTION_CATEGORIES`: the fixed 8-category vocabulary, in order. -/
def EMOTION_CATEGORIES : List String :=
  ["joy", "anger", "fear", "sadness", "surprise", "disgust", "trust", "anticipation"]

/-- `_EMOTION_LEXICON`: the curated word-to-emotion table. -/
def EMOTION_LEXICON : List (String × List String) :=
 [("joy",
    ["happy", "love", "wonderful", "great", "amazing", "excellent",
     "beautiful", "celebrate", "delight", "fantastic", "glad", "cheerful",
     "pleased", "joy", "thrilled", "ecstatic", "bliss", "elated",
     "grateful", "optimistic", "success", "win", "triumph", "paradise",
     "brilliant", "superb", "awesome", "hope", "proud", "laugh", "smile",
     "fun", "enjoy", "peace", "comfort", "bright", "radiant", "warm",
     "kind", "generous", "uplift", "inspire"]),
  ("anger",
    ["angry", "furious", "outrage", "rage", "hate", "hostile", "violent",
     "attack", "destroy", "war", "fight", "aggression", "resent", "bitter",
     "irritate", "annoy", "frustrate", "provoke", "enrage", "infuriate",
     "condemn", "denounce", "protest", "revolt", "clash", "conflict",
     "abuse", "exploit", "corruption", "injustice", "oppression",
     "tyranny", "bully", "harass", "threaten", "demand", "blame", "accuse",
     "betray"]),
  ("fear",
    ["afraid", "fear", "terror", "panic", "scare", "dread", "horror",
     "threat", "danger", "risk", "crisis", "emergency", "alarm", "anxiety",
     "worry", "nervous", "concern", "caution", "warn", "hazard", "peril",
     "catastrophe", "disaster", "devastation", "collapse", "doom", "chaos",
     "plague", "epidemic", "pandemic", "vulnerable", "helpless",
     "desperate", "uncertain", "unstable", "volatile", "flee", "escape",
     "survive"]),
  ("sadness",
    ["sad", "grief", "sorrow", "mourn", "tragic", "loss", "suffer", "pain",
     "hurt", "cry", "tears", "misery", "despair", "hopeless", "depress",
     "lonely", "abandon", "neglect", "regret", "disappoint", "fail",
     "defeat", "decline", "deteriorate", "poverty", "famine", "death",
     "die", "kill", "victim", "casualty", "funeral", "memorial",
     "devastate", "heartbreak", "anguish", "agony", "lament", "woe"]),
  ("surprise",
    ["surprise", "shock", "astonish", "amaze", "stun", "unexpected",
     "sudden", "breaking", "unprecedented", "remarkable", "extraordinary",
     "incredible", "unbelievable", "dramatic", "revelation", "discover",
     "breakthrough", "miracle", "twist", "upset", "bombshell",
     "jaw-dropping", "alert", "flash", "interrupt", "announce", "reveal",
     "unveil"]),
  ("disgust",
    ["disgust", "repulsive", "gross", "vile", "sick", "revolting", "nasty",
     "foul", "corrupt", "scandal", "fraud", "cheat", "deceive", "toxic",
     "contaminate", "pollute", "waste", "filth", "sleaze", "hypocrisy",
     "shameful", "despicable", "contempt", "loathe", "abhor", "obscene",
     "vulgar", "offensive", "grotesque", "perverse"]),
  ("trust",
    ["trust", "reliable", "honest", "integrity", "loyal", "faithful",
     "secure", "safe", "stable", "protect", "support", "ally", "partner",
     "cooperate", "unite", "together", "solidarity", "agreement", "treaty",
     "peace", "harmony", "respect", "honor", "commit", "promise", "pledge",
     "transparent", "accountable", "responsible", "fair", "just",
     "equitable"]),
  ("anticipation",
    ["expect", "anticipate", "predict", "forecast", "plan", "prepare",
     "upcoming", "future", "tomorrow", "next", "soon", "await", "pending",
     "potential", "prospect", "opportunity", "launch", "release", "debut",
     "election", "vote", "decision", "deadline", "schedule", "target",
     "goal", "ambition", "aspire", "strategy", "initiative", "proposal"])]

/-- `_WORD_TO_EMOTIONS[word]`: the emotions whose word list contains
`word`, in table order.  The flattening loop in `emotion.py` appends
emotions to `_WORD_TO_EMOTIONS[word]` in exactly this order, and no word
is repeated inside a single category's list. -/
def wordToEmotions (word : String) : List String :=
  (EMOTION_LEXICON.filter (fun p => word ∈ p.2)).map (fun p => p.1)

/-- Scanner for the maximal `\w`-runs of a string: `current` is the
run in progress, reversed. -/
def wordRunsAux (current : Str) : Str → List Str
  | [] => if current = [] then [] else [current.reverse]
  | c :: rest =>
    if isWordChar c then wordRunsAux (c :: current) rest
    else if current = [] then wordRunsAux [] rest
    else current.reverse :: wordRunsAux [] rest

/-- The maximal runs of `\w` characters of a string, in order. -/
def wordRuns (s : Str) : List Str :=
  wordRunsAux [] s

/-- `_WORD_RE.findall(text.lower())` with `_WORD_RE = \b[a-z]+\b`: a
maximal `\w`-run yields a match exactly when it consists of lowercase
letters only (a digit or underscore inside the run prevents the word
boundaries from surrounding any pure-letter piece of it). -/
def findWords (text : Str) : List Str :=
  (wordRuns (text.map Char.toLower)).filter
    (fun w => w.all (fun c => 'a' ≤ c ∧ c ≤ 'z'))

/-- The total hit count accumulated by the word loop of
`_analyze_lexicon`: one hit per (token, emotion-of-token) pair. -/
def totalHits (words : List Str) : ℕ :=
  (words.map (fun w => (wordToEmotions (String.mk w)).length)).sum

/-- The per-category hit count accumulated by the word loop of
`_analyze_lexicon`. -/
def emotionHits (words : List Str) (emotion : String) : ℕ :=
  (words.map (fun w => (wordToEmotions (String.mk w)).count emotion)).sum

/-- `EmotionResult`. -/
structure EmotionResult where
  scores : Dict ℚ := []
  dominant_emotion : String := "neutral"
deriving DecidableEq

/-- `max(iterable, key=...)` over non-empty association-list values:
keeps the current best and replaces it only on a strictly greater value,
so the first key attaining the maximum wins. -/
def argmaxAux (best : String × ℚ) : List (String × ℚ) → String
  | [] => best.1
  | p :: rest => if best.2 < p.2 then argmaxAux p rest else argmaxAux best rest

/-- `max(scores, key=scores.get)` on a dict in insertion order. -/
def argmaxKey (l : List (String × ℚ)) : String :=
  match l with
  | [] => "neutral"
  | p :: rest => argmaxAux p rest

/-- `EmotionAnalyzer._analyze_lexicon`. -/
def analyze_lexicon (text : Str) : EmotionResult :=
  let words := findWords text
  let total := totalHits words
  let scores : Dict ℚ := EMOTION_CATEGORIES.map (fun emotion =>
    (emotion,
      if 0 < total then pyRound 4 ((emotionHits words emotion : ℚ) / (total : ℚ))
      else pyRound 4 (1 / (EMOTION_CATEGORIES.length : ℚ))))
  let dominant := if 0 < total then argmaxKey scores else "neutral"
  { scores := scores, dominant_emotion := dominant }

/-! ## `src/models/sentiment.py` (data model only) -/

/-- `SentimentResult`. -/
structure SentimentResult where
  positive : ℚ := 0
  neutral : ℚ := 0
  negative : ℚ := 0
  compound : ℚ := 0
deriving DecidableEq

/-! ## `src/scoring/aggregator.py` -/

/-- Per-source entry of `source_breakdown`. -/
structure SourceBreakdown where
  count : ℕ
  sentiment : Dict ℚ
  emotions : Dict ℚ
  weight : ℚ
deriving DecidableEq

/-- `AggregatedResult` with the dataclass defaults. -/
structure AggregatedResult where
  items_analyzed : ℕ := 0
  sentiment : Dict ℚ := []
  emotions : Dict ℚ := []
  source_breakdown : List (String × SourceBreakdown) := []
  dominant_emotion : String := "neutral"
  avg_compound : ℚ := 0
deriving DecidableEq

/-- `Aggregator.__init__`: keeps `config.get("source_weights", {})`. -/
structure Aggregator where
  source_weights : Dict ℚ := []

/-- The per-category corpus emotion average before re-normalization:
`round(sum(e.scores.get(emotion, 0.0) for e in emotions) / n, 4)`. -/
def rawEmotionAvg (items : List CollectedItem) (emotions : List EmotionResult)
    (emotion : String) : ℚ :=
  pyRound 4 ((emotions.map (fun e => dictGet e.scores emotion 0)).sum /
    (items.length : ℚ))

/-- `emo_total`: the sum of the 8 per-category averages. -/
def emoTotal (items : List CollectedItem) (emotions : List EmotionResult) : ℚ :=
  (EMOTION_CATEGORIES.map (fun emotion => rawEmotionAvg items emotions emotion)).sum

/-- The source categories of the items in first-occurrence order (the
iteration order of the `defaultdict` built by the grouping loop). -/
def firstOccurrenceCategories (items : List CollectedItem) : List String :=
  items.foldl (fun acc it =>
    if it.source_category ∈ acc then acc else acc ++ [it.source_category]) []

/-- The per-source reduction of `Aggregator.aggregate`, over the rows
(item, sentiment, emotion) whose item belongs to the category. -/
def sourceStats (ag : Aggregator)
    (rows : List (CollectedItem × SentimentResult × EmotionResult))
    (source_cat : String) : SourceBreakdown :=
  let sub := rows.filter (fun r => r.1.source_category == source_cat)
  let src_n : ℚ := (sub.length : ℚ)
  { count := sub.length
    sentiment :=
      [("positive", pyRound 4 ((sub.map (fun r => r.2.1.positive)).sum / src_n)),
       ("neutral", pyRound 4 ((sub.map (fun r => r.2.1.neutral)).sum / src_n)),
       ("negative", pyRound 4 ((sub.map (fun r => r.2.1.negative)).sum / src_n))]
    emotions := EMOTION_CATEGORIES.map (fun emotion =>
      (emotion, pyRound 4 ((sub.map (fun r => dictGet r.2.2.scores emotion 0)).sum / src_n)))
    weight := dictGet ag.source_weights source_cat 0 }

/-- `Aggregator.aggregate`.  The three sequences are positionally
aligned; the source breakdown pairs them by position (`sentiments[i]`,
`emotions[i]` for the grouped item indices), modelled by `zip`. -/
def Aggregator.aggregate (ag : Aggregator) (items : List CollectedItem)
    (sentiments : List SentimentResult) (emotions : List EmotionResult) :
    AggregatedResult :=
  if items = [] then {}
  else
    let n : ℚ := (items.length : ℚ)
    let global_sentiment : Dict ℚ :=
      [("positive", pyRound 4 ((sentiments.map (fun s => s.positive)).sum / n)),
       ("neutral", pyRound 4 ((sentiments.map (fun s => s.neutral)).sum / n)),
       ("negative", pyRound 4 ((sentiments.map (fun s => s.negative)).sum / n))]
    let avg_compound := pyRound 4 ((sentiments.map (fun s => s.compound)).sum / n)
    let global_emotions0 : Dict ℚ :=
      EMOTION_CATEGORIES.map (fun emotion => (emotion, rawEmotionAvg items emotions emotion))
    let emo_total := emoTotal items emotions
    let global_emotions :=
      if 0 < emo_total then
        global_emotions0.map (fun p => (p.1, pyRound 4 (p.2 / emo_total)))
      else global_emotions0
    let dominant := argmaxKey global_emotions
    let rows := items.zip (sentiments.zip emotions)
    let source_breakdown := (firstOccurrenceCategories items).map
      (fun source_cat => (source_cat, sourceStats ag rows source_cat))
    { items_analyzed := items.length
      sentiment := global_sentiment
      emotions := global_emotions
      source_breakdown := source_breakdown
      dominant_emotion := dominant
      avg_compound := avg_compound }

/-! ## `src/scoring/loosh_index.py` -/

/-- `LooshScore` (the `components` audit-trail mapping, a nested dict of
intermediate quantities no claim refers to, is not modelled). -/
structure LooshScore where
  index : ℚ
  label : String
deriving DecidableEq

/-- The `loosh_index` sub-dictionary of the configuration: `None`
models an absent key. -/
structure LooshIndexSettings where
  emotion_polarity : Option (Dict ℚ) := none
  baseline : Option ℚ := none
  scale_min : Option ℚ := none
  scale_max : Option ℚ := none

/-- The configuration dictionary consumed by `LooshIndexCalculator`. -/
structure PipelineConfig where
  loosh_index : Option LooshIndexSettings := none
  source_weights : Option (Dict ℚ) := none

/-- The default emotion polarity table of `LooshIndexCalculator.__init__`. -/
def DEFAULT_EMOTION_POLARITY : Dict ℚ :=
  [("joy", -1), ("anger", 3 / 2), ("fear", 9 / 5), ("sadness", 6 / 5),
   ("surprise", 3 / 10), ("disgust", 1), ("trust", -(4 / 5)), ("anticipation", 1 / 5)]

/-- `LooshIndexCalculator` after construction. -/
structure LooshIndexCalculator where
  emotion_polarity : Dict ℚ := DEFAULT_EMOTION_POLARITY
  baseline : ℚ := 50
  scale_min : ℚ := 0
  scale_max : ℚ := 100
  source_weights : Dict ℚ := []

/-- `LooshIndexCalculator.__init__`: a chain of `dict.get` calls with
defaults and no validation of any kind (in particular it cannot fail). -/
def LooshIndexCalculator.ofConfig (config : PipelineConfig) : LooshIndexCalculator :=
  let loosh_config := config.loosh_index.getD {}
  { emotion_polarity := loosh_config.emotion_polarity.getD DEFAULT_EMOTION_POLARITY
    baseline := loosh_config.baseline.getD 50
    scale_min := loosh_config.scale_min.getD 0
    scale_max := loosh_config.scale_max.getD 100
    source_weights := config.source_weights.getD [] }

/-- `LooshIndexCalculator._label`. -/
def labelForIndex (index : ℚ) : String :=
  if index < 20 then "Very Calm"
  else if index < 35 then "Calm"
  else if index < 45 then "Slightly Calm"
  else if index < 55 then "Neutral"
  else if index < 65 then "Slightly Elevated"
  else if index < 75 then "Elevated"
  else if index < 85 then "High"
  else "Very High"

/-- The polarity-weighted emotion signal of one source's breakdown
(step 3 of `calculate`). -/
def sourceSignal (c : LooshIndexCalculator) (breakdown : SourceBreakdown) : ℚ :=
  (breakdown.emotions.map (fun p => p.2 * dictGet c.emotion_polarity p.1 0)).sum

/-- `LooshIndexCalculator.calculate`. -/
def LooshIndexCalculator.calculate (c : LooshIndexCalculator)
    (aggregated : AggregatedResult) : LooshScore :=
  if aggregated.items_analyzed = 0 then { index := c.baseline, label := "No Data" }
  else
    let emotion_signal0 :=
      (aggregated.emotions.map (fun p => p.2 * dictGet c.emotion_polarity p.1 0)).sum
    let neg_ratio := dictGet aggregated.sentiment "negative" 0
    let pos_ratio := dictGet aggregated.sentiment "positive" 0
    let sentiment_amplifier := 1 + (neg_ratio - pos_ratio) * (1 / 2)
    let emotion_signal :=
      if aggregated.source_breakdown ≠ [] ∧ c.source_weights ≠ [] then
        let used := aggregated.source_breakdown.filter
          (fun p => decide (0 < dictGet c.source_weights p.1 0))
        let weighted_signal :=
          (used.map (fun p => sourceSignal c p.2 * dictGet c.source_weights p.1 0)).sum
        let total_weight := (used.map (fun p => dictGet c.source_weights p.1 0)).sum
        if 0 < total_weight then weighted_signal / total_weight else emotion_signal0
      else emotion_signal0
    let raw_index := c.baseline + emotion_signal * sentiment_amplifier * 25
    let index := max c.scale_min (min c.scale_max (pyRound 1 raw_index))
    { index := index, label := labelForIndex index }

/-! ## Specification-side predicates -/

/-- `r` is the key of the first entry of `l` attaining the maximal
value: some entry with key `r` is strictly greater than everything
before it and at least as great as everything in `l`.  This is the
"argmax with ties broken by list order" of the specification. -/
def IsFirstArgmax (l : List (String × ℚ)) (r : String) : Prop :=
  ∃ pre q post, l = pre ++ q :: post ∧ q.1 = r ∧
    (∀ p ∈ pre, p.2 < q.2) ∧ (∀ p ∈ l, p.2 ≤ q.2)

/-! ## Concrete instances used by witnesses and counterexamples -/

/-- An item whose canonicalized combined text is `abcdefghij`. -/
def dupA : CollectedItem :=
  { text := "abcdefghij".toList, source_name := "t", source_category := "t" }

/-- An item whose canonicalized combined text is `abcdefghijk`: a near
duplicate of `dupA` (3-shingle Jaccard similarity 8/9) but not an exact
duplicate. -/
def dupB : CollectedItem :=
  { text := "abcdefghijk".toList, source_name := "t", source_category := "t" }

/-- A fresh deduplicator with the default threshold 0.85. -/
def dedupDefault : Deduplicator := {}

/-- A fresh deduplicator with threshold 0.5. -/
def dedupHalf : Deduplicator := { similarity_threshold := 1 / 2 }

/-- Item with canonicalized text `abcde`. -/
def itemABCDE : CollectedItem :=
  { text := "abcde".toList, source_name := "t", source_category := "t" }

/-- Item with canonicalized text `abcdef`: Jaccard similarity 3/4
with `itemABCDE`. -/
def itemABCDEF : CollectedItem :=
  { text := "abcdef".toList, source_name := "t", source_category := "t" }

/-- Item with canonicalized text `vwxyz`: Jaccard similarity 0 with
`itemABCDE`. -/
def itemVWXYZ : CollectedItem :=
  { text := "vwxyz".toList, source_name := "t", source_category := "t" }

/-- A configuration whose `loosh_index.emotion_polarity` entry is the
empty table. -/
def emptyPolarityConfig : PipelineConfig :=
  { loosh_index := some { emotion_polarity := some [] } }

/-- The uniform emotion distribution over the 8 categories. -/
def uniformEmotion : EmotionResult :=
  { scores := EMOTION_CATEGORIES.map (fun e => (e, (1 : ℚ) / 8)), dominant_emotion := "joy" }

/-- A per-item distribution putting 1/3 on each of joy, anger and fear:
its per-category 4-decimal roundings sum to 0.9999, not 1. -/
def thirdsEmotion : EmotionResult :=
  { scores := [("joy", 1 / 3), ("anger", 1 / 3), ("fear", 1 / 3), ("sadness", 0),
               ("surprise", 0), ("disgust", 0), ("trust", 0), ("anticipation", 0)]
    dominant_emotion := "joy" }

/-- A generic test item. -/
def testItem : CollectedItem :=
  { text := "test".toList, source_name := "t", source_category := "rss_news" }

/-- A balanced sentiment result. -/
def balancedSentiment : SentimentResult :=
  { positive := 1 / 4, neutral := 1 / 2, negative := 1 / 4, compound := 0 }

/-- A text with three lexicon hits: joy 1 (`happy`), anger 2 (`hate`,
`war`). -/
def happyHateWar : Str := "happy hate war".toList

/-- An aggregate describing one analyzed item with a uniform corpus
emotion distribution, balanced sentiment and no source breakdown. -/
def oneItemAgg : AggregatedResult :=
  { items_analyzed := 1
    sentiment := [("positive", 1 / 4), ("neutral", 1 / 2), ("negative", 1 / 4)]
    emotions := EMOTION_CATEGORIES.map (fun e => (e, (1 : ℚ) / 8))
    source_breakdown := []
    dominant_emotion := "joy"
    avg_compound := 0 }

/-- A calculator whose configured baseline 200 lies outside the
configured scale `[0, 100]`. -/
def wideBaselineCalc : LooshIndexCalculator := { baseline := 200 }

/-- A small text cleaner configuration. -/
def smallCleaner : TextCleaner := { min_length := 1, max_length := 3 }

/-! ## Helper lemmas -/

theorem dictGet_map_self (cats : List String) (g : String → ℚ) (k : String) (d : ℚ) :
    dictGet (cats.map (fun c => (c, g c))) k d = if k ∈ cats then g k else d := by
  induction cats with
  | nil => simp [dictGet]
  | cons c rest ih =>
    by_cases h : c = k
    · subst h
      simp [dictGet]
    · simp only [List.map_cons, dictGet] at ih ⊢
      rw [List.find?_cons_of_neg _ (by simp [h])]
      rw [ih]
      simp [Ne.symm h]

theorem sum_map_div (l : List String) (f : String → ℚ) (T : ℚ) :
    (l.map (fun e => f e / T)).sum = (l.map f).sum / T := by
  induction l with
  | nil => simp
  | cons c rest ih => simp [ih, add_div]

theorem argmaxAux_isFirstArgmax (l : List (String × ℚ)) :
    ∀ b : String × ℚ, IsFirstArgmax (b :: l) (argmaxAux b l) := by
  induction l with
  | nil =>
    intro b
    exact ⟨[], b, [], rfl, rfl, by simp, by simp⟩
  | cons p rest ih =>
    intro b
    by_cases h : b.2 < p.2
    · simp only [argmaxAux, if_pos h]
      obtain ⟨pre, q, post, heq, hq, hpre, hall⟩ := ih p
      have hpq : p.2 ≤ q.2 := hall p (List.mem_cons_self _ _)
      refine ⟨b :: pre, q, post, by rw [List.cons_append, ← heq], hq, ?_, ?_⟩
      · intro x hx
        rcases List.mem_cons.mp hx with rfl | hx
        · exact lt_of_lt_of_le h hpq
        · exact hpre x hx
      · intro x hx
        rcases List.mem_cons.mp hx with rfl | hx
        · exact le_of_lt (lt_of_lt_of_le h hpq)
        · exact hall x hx
    · simp only [argmaxAux, if_neg h]
      have hple : p.2 ≤ b.2 := le_of_not_lt h
      obtain ⟨pre, q, post, heq, hq, hpre, hall⟩ := ih b
      cases pre with
      | nil =>
        simp only [List.nil_append] at heq
        injection heq with h1 h2
        subst h1
        subst h2
        refine ⟨[], b, p :: rest, rfl, hq, by simp, ?_⟩
        intro x hx
        rcases List.mem_cons.mp hx with rfl | hx
        · exact le_refl _
        rcases List.mem_cons.mp hx with rfl | hx
        · exact hple
        · exact hall x (List.mem_cons_of_mem _ hx)
      | cons b' pre' =>
        have hb' : b = b' := (List.cons.inj heq).1
        subst hb'
        have hrest : rest = pre' ++ q :: post := (List.cons.inj heq).2
        have hbq : b.2 < q.2 := hpre b (List.mem_cons_self _ _)
        refine ⟨b :: p :: pre', q, post, by rw [hrest]; rfl, hq, ?_, ?_⟩
        · intro x hx
          rcases List.mem_cons.mp hx with rfl | hx
          · exact hbq
          rcases List.mem_cons.mp hx with rfl | hx
          · exact lt_of_le_of_lt hple hbq
          · exact hpre x (List.mem_cons_of_mem _ hx)
        · intro x hx
          rcases List.mem_cons.mp hx with rfl | hx
          · exact le_of_lt hbq
          rcases List.mem_cons.mp hx with rfl | hx
          · exact le_trans hple (le_of_lt hbq)
          · exact hall x (List.mem_cons_of_mem _ hx)

theorem argmaxKey_isFirstArgmax (l : List (String × ℚ)) (h : l ≠ []) :
    IsFirstArgmax l (argmaxKey l) := by
  cases l with
  | nil => exact absurd rfl h
  | cons p rest => exact argmaxAux_isFirstArgmax rest p

set_option maxHeartbeats 1600000 in
theorem jaccard_near_eval :
    jaccard_similarity (ngram_fingerprint itemABCDEF.combined_text)
      (ngram_fingerprint itemABCDE.combined_text) = 3 / 4 := by
  have h1 : ¬(ngram_fingerprint itemABCDEF.combined_text = ∅ ∨
      ngram_fingerprint itemABCDE.combined_text = ∅) := by decide
  have h2 : (ngram_fingerprint itemABCDEF.combined_text ∩
      ngram_fingerprint itemABCDE.combined_text).card = 3 := by decide
  have h3 : (ngram_fingerprint itemABCDEF.combined_text ∪
      ngram_fingerprint itemABCDE.combined_text).card = 4 := by decide
  unfold jaccard_similarity
  rw [if_neg h1, h2, h3]
  norm_num

set_option maxHeartbeats 1600000 in
set_option maxRecDepth 8000 in
theorem jaccard_far_eval :
    jaccard_similarity (ngram_fingerprint itemVWXYZ.combined_text)
      (ngram_fingerprint itemABCDE.combined_text) = 0 := by
  have h1 : ¬(ngram_fingerprint itemVWXYZ.combined_text = ∅ ∨
      ngram_fingerprint itemABCDE.combined_text = ∅) := by decide
  have h2 : (ngram_fingerprint itemVWXYZ.combined_text ∩
      ngram_fingerprint itemABCDE.combined_text).card = 0 := by decide
  have h3 : (ngram_fingerprint itemVWXYZ.combined_text ∪
      ngram_fingerprint itemABCDE.combined_text).card = 6 := by decide
  unfold jaccard_similarity
  rw [if_neg h1, h2, h3]
  norm_num

set_option maxHeartbeats 1600000 in
set_option maxRecDepth 8000 in
theorem jaccard_dup_eval :
    jaccard_similarity (ngram_fingerprint dupB.combined_text)
      (ngram_fingerprint dupA.combined_text) = 8 / 9 := by
  have h1 : ¬(ngram_fingerprint dupB.combined_text = ∅ ∨
      ngram_fingerprint dupA.combined_text = ∅) := by decide
  have h2 : (ngram_fingerprint dupB.combined_text ∩
      ngram_fingerprint dupA.combined_text).card = 8 := by decide
  have h3 : (ngram_fingerprint dupB.combined_text ∪
      ngram_fingerprint dupA.combined_text).card = 9 := by decide
  unfold jaccard_similarity
  rw [if_neg h1, h2, h3]
  norm_num

theorem dedupGo_sound (threshold : ℚ) (items : List CollectedItem) :
    ∀ (seen : Finset Str) (fps : List (Finset Str)),
      (∀ x ∈ (dedupGo threshold seen fps items).2, content_hash x.combined_text ∉ seen) ∧
      (dedupGo threshold seen fps items).2.Pairwise
        (fun x y => content_hash x.combined_text ≠ content_hash y.combined_text) := by
  induction items with
  | nil =>
    intro seen fps
    simp [dedupGo]
  | cons item rest ih =>
    intro seen fps
    by_cases h1 : pyStrip item.combined_text = []
    · simpa [dedupGo, h1] using ih seen fps
    by_cases h2 : content_hash item.combined_text ∈ seen
    · simpa [dedupGo, h1, h2] using ih seen fps
    by_cases h3 : ∃ existing_fp ∈ fps,
        threshold ≤ jaccard_similarity (ngram_fingerprint item.combined_text) existing_fp
    · simpa [dedupGo, h1, h2, h3] using ih seen fps
    · have hrec := ih (insert (content_hash item.combined_text) seen)
        (fps ++ [ngram_fingerprint item.combined_text])
      simp only [dedupGo, if_neg h1, if_neg h2, if_neg h3]
      constructor
      · intro x hx
        rcases List.mem_cons.mp hx with rfl | hx
        · exact h2
        · exact fun hmem => hrec.1 x hx (Finset.mem_insert_of_mem hmem)
      · refine List.pairwise_cons.mpr ⟨?_, hrec.2⟩
        intro y hy heq
        exact hrec.1 y hy (heq ▸ Finset.mem_insert_self _ _)

/-! ## Claim theorems -/

/-- C5: within a batch handed to `deduplicate`, an item whose
canonicalized combined title+text coincides with an earlier accepted
item's is removed (the kept items have pairwise distinct
canonicalizations, and none was already in the session's seen-hash
state); two items whose 3-shingle Jaccard similarity meets the threshold
collapse to the first one; two items strictly below the threshold (and
not exact duplicates) are both kept. -/
theorem C5_deduplicate_exact_and_near :
    (∀ (d : Deduplicator) (items : List CollectedItem),
      (∀ x ∈ (d.deduplicate items).2, normalize_for_hash x.combined_text ∉ d.seen_hashes) ∧
      (d.deduplicate items).2.Pairwise
        (fun x y => normalize_for_hash x.combined_text ≠ normalize_for_hash y.combined_text)) ∧
    (∀ (d : Deduplicator) (A B : CollectedItem),
      pyStrip A.combined_text ≠ [] →
      content_hash A.combined_text ∉ d.seen_hashes →
      d.similarity_threshold ≤
        jaccard_similarity (ngram_fingerprint B.combined_text) (ngram_fingerprint A.combined_text) →
      (d.deduplicate [A, B]).2 = [A]) ∧
    (∀ (d : Deduplicator) (A B : CollectedItem),
      pyStrip A.combined_text ≠ [] → pyStrip B.combined_text ≠ [] →
      content_hash A.combined_text ∉ d.seen_hashes →
      content_hash B.combined_text ∉ d.seen_hashes →
      content_hash B.combined_text ≠ content_hash A.combined_text →
      jaccard_similarity (ngram_fingerprint B.combined_text) (ngram_fingerprint A.combined_text) <
        d.similarity_threshold →
      (d.deduplicate [A, B]).2 = [A, B]) := by
  refine ⟨?_, ?_, ?_⟩
  · intro d items
    exact dedupGo_sound d.similarity_threshold items d.seen_hashes []
  · intro d A B hA1 hA2 hJ
    show (dedupGo d.similarity_threshold d.seen_hashes [] [A, B]).2 = [A]
    simp only [dedupGo, if_neg hA1, if_neg hA2]
    rw [if_neg (by simp)]
    by_cases hB1 : pyStrip B.combined_text = []
    · simp [dedupGo, hB1]
    by_cases hB2 : content_hash B.combined_text ∈
        insert (content_hash A.combined_text) d.seen_hashes
    · simp [dedupGo, hB1, hB2]
    · simp [dedupGo, hB1, hB2, hJ]
  · intro d A B hA1 hB1 hA2 hB2 hne hJ
    have hB2' : content_hash B.combined_text ∉
        insert (content_hash A.combined_text) d.seen_hashes := by
      simp [Finset.mem_insert, hne, hB2]
    show (dedupGo d.similarity_threshold d.seen_hashes [] [A, B]).2 = [A, B]
    simp only [dedupGo, if_neg hA1, if_neg hA2]
    rw [if_neg (by simp)]
    simp [dedupGo, hB1, hB2', not_le.mpr hJ]

/-- C5 witness: with threshold 0.5, `abcde` and `abcdef` (Jaccard 3/4)
collapse to the first, while `abcde` and `vwxyz` (Jaccard 0) are both
kept and form a pairwise-distinct output not touching the session
state. -/
theorem C5_deduplicate_exact_and_near_witness :
    ((∀ x ∈ (dedupHalf.deduplicate [itemABCDE, itemVWXYZ]).2,
        normalize_for_hash x.combined_text ∉ dedupHalf.seen_hashes) ∧
      (dedupHalf.deduplicate [itemABCDE, itemVWXYZ]).2.Pairwise
        (fun x y => normalize_for_hash x.combined_text ≠ normalize_for_hash y.combined_text)) ∧
    (dedupHalf.deduplicate [itemABCDE, itemABCDEF]).2 = [itemABCDE] ∧
    (dedupHalf.deduplicate [itemABCDE, itemVWXYZ]).2 = [itemABCDE, itemVWXYZ] := by
  refine ⟨?_, ?_, ?_⟩
  · exact C5_deduplicate_exact_and_near.1 dedupHalf [itemABCDE, itemVWXYZ]
  · exact C5_deduplicate_exact_and_near.2.1 dedupHalf itemABCDE itemABCDEF
      (by decide) (by decide) (by rw [jaccard_near_eval]; norm_num [dedupHalf])
  · exact C5_deduplicate_exact_and_near.2.2 dedupHalf itemABCDE itemVWXYZ
      (by decide) (by decide) (by decide) (by decide) (by decide)
      (by rw [jaccard_far_eval]; norm_num [dedupHalf])

/-- C1 counterexample: with the default threshold, `dupA` is accepted in
a first `deduplicate` call; `dupB`, whose shingle set has Jaccard
similarity 8/9 ≥ 0.85 with `dupA`'s (and a different content digest), is
nevertheless kept by a second call on the same instance — the incoming
item is not tested against the shingle sets of items accepted in earlier
calls of the session, contradicting the claim. -/
theorem C1_near_duplicate_state_not_session_wide :
    (dedupDefault.deduplicate [dupA]).2 = [dupA] ∧
    ((dedupDefault.deduplicate [dupA]).1.deduplicate [dupB]).2 = [dupB] ∧
    dedupDefault.similarity_threshold ≤
      jaccard_similarity (ngram_fingerprint dupB.combined_text)
        (ngram_fingerprint dupA.combined_text) ∧
    content_hash dupB.combined_text ≠ content_hash dupA.combined_text := by
  refine ⟨by decide, by decide, ?_, by decide⟩
  rw [jaccard_dup_eval]
  norm_num [dedupDefault]

/-- C1 (amended): near-duplicate shingle comparison is scoped to a
single `deduplicate` call — a singleton later batch is kept whenever it
is not an exact (hash) duplicate, regardless of any earlier accepted
item's shingles; the seen-hash state is the only state that persists
across calls and removes exact duplicates; `reset()` clears it (and
leaves the threshold unchanged). -/
theorem C1_per_call_near_duplication_and_reset :
    (∀ (d : Deduplicator) (b : CollectedItem),
      pyStrip b.combined_text ≠ [] →
      content_hash b.combined_text ∉ d.seen_hashes →
      (d.deduplicate [b]).2 = [b]) ∧
    (∀ (d : Deduplicator) (b : CollectedItem),
      content_hash b.combined_text ∈ d.seen_hashes →
      (d.deduplicate [b]).2 = []) ∧
    (∀ d : Deduplicator,
      d.reset.seen_hashes = ∅ ∧ d.reset.similarity_threshold = d.similarity_threshold) := by
  refine ⟨?_, ?_, fun d => ⟨rfl, rfl⟩⟩
  · intro d b h1 h2
    show (dedupGo d.similarity_threshold d.seen_hashes [] [b]).2 = [b]
    simp [dedupGo, h1, h2]
  · intro d b h
    by_cases h1 : pyStrip b.combined_text = []
    · show (dedupGo d.similarity_threshold d.seen_hashes [] [b]).2 = []
      simp [dedupGo, h1]
    · show (dedupGo d.similarity_threshold d.seen_hashes [] [b]).2 = []
      simp [dedupGo, h1, h]

/-- C1 witness: concrete second-call behaviour on the instance that
already accepted `dupA`: the near-duplicate `dupB` is kept, the exact
duplicate `dupA` is removed, and `reset()` clears the seen-hash state. -/
theorem C1_per_call_near_duplication_and_reset_witness :
    ((dedupDefault.deduplicate [dupA]).1.deduplicate [dupB]).2 = [dupB] ∧
    ((dedupDefault.deduplicate [dupA]).1.deduplicate [dupA]).2 = [] ∧
    ((dedupDefault.deduplicate [dupA]).1.reset.seen_hashes = ∅ ∧
      (dedupDefault.deduplicate [dupA]).1.reset.similarity_threshold =
        (dedupDefault.deduplicate [dupA]).1.similarity_threshold) := by
  refine ⟨?_, ?_, ?_⟩
  · exact C1_per_call_near_duplication_and_reset.1 _ dupB (by decide) (by decide)
  · exact C1_per_call_near_duplication_and_reset.2.1 _ dupA (by decide)
  · exact C1_per_call_near_duplication_and_reset.2.2 _

/-- C10: for every `min_length`/`max_length` configuration (and every
behaviour of the external `html.unescape`), `clean` applied to the empty
string returns absent — the emptiness test precedes the length rules, so
this holds even with `min_length = 0` — and every string `clean` returns
has length at most `max_length`. -/
theorem C10_clean_empty_and_truncation (unescape : Str → Str) (tc : TextCleaner) :
    tc.clean unescape [] = none ∧
    ∀ text r, tc.clean unescape text = some r → r.length ≤ tc.max_length := by
  refine ⟨rfl, ?_⟩
  intro text r h
  by_cases h0 : text = []
  · rw [TextCleaner.clean, if_pos h0] at h
    exact absurd h (by simp)
  · rw [TextCleaner.clean, if_neg h0] at h
    simp only at h
    split_ifs at h with h1 h2 h3
    · injection h with h
      subst h
      rw [List.length_take]
      exact min_le_left _ _
    · injection h with h
      subst h
      exact le_of_not_lt h1

/-- C10 witness: with `min_length = 1`, `max_length = 3`, the input
`abcd` is cleaned to a kept string of length at most 3, and the empty
string is rejected. -/
theorem C10_clean_empty_and_truncation_witness :
    smallCleaner.clean id [] = none ∧
    ("abc".toList).length ≤ smallCleaner.max_length :=
  ⟨(C10_clean_empty_and_truncation id smallCleaner).1,
   (C10_clean_empty_and_truncation id smallCleaner).2 ("abcd".toList) ("abc".toList) (by decide)⟩

/-- C8: every stage returns a well-defined default on a zero-length
input: `clean_batch` returns the empty sequence, `aggregate` returns the
zero-count result with no source-breakdown entries, and `calculate` on
that zero-count result returns the baseline score labelled No Data. -/
theorem C8_zero_length_inputs (unescape : Str → Str) (tc : TextCleaner)
    (ag : Aggregator) (c : LooshIndexCalculator) :
    tc.clean_batch unescape [] = [] ∧
    (ag.aggregate [] [] []).items_analyzed = 0 ∧
    (ag.aggregate [] [] []).source_breakdown = [] ∧
    c.calculate (ag.aggregate [] [] []) = { index := c.baseline, label := "No Data" } :=
  ⟨rfl, rfl, rfl, rfl⟩

/-- C2: the claim asks the constructor to fail fast on an empty
polarity-weight table, but `LooshIndexCalculator.__init__` performs no
validation: construction with an empty `emotion_polarity` table
succeeds, and `calculate` then silently scores every category with
polarity 0, returning the bare baseline (here 50, labelled Neutral) on a
one-item aggregate instead of any construction-time error. -/
theorem C2_constructor_accepts_empty_table :
    (LooshIndexCalculator.ofConfig emptyPolarityConfig).emotion_polarity = [] ∧
    (LooshIndexCalculator.ofConfig emptyPolarityConfig).calculate oneItemAgg =
      { index := 50, label := "Neutral" } := by
  refine ⟨rfl, ?_⟩
  norm_num [LooshIndexCalculator.calculate, LooshIndexCalculator.ofConfig, emptyPolarityConfig,
    oneItemAgg, EMOTION_CATEGORIES, dictGet, List.find?, labelForIndex,
    pyRound, pyRoundInt, round_eq]

/-- C4 counterexample: with a configured baseline of 200 and scale
`[0, 100]`, a zero-item aggregate is scored with index 200 — the
zero-item branch returns the baseline unclamped, so the index can lie
outside `[scale_min, scale_max]`, contradicting the unconditional range
claim. -/
theorem C4_baseline_outside_scale_counterexample :
    (wideBaselineCalc.calculate {}).index = 200 ∧
    ¬((wideBaselineCalc.calculate {}).index ≤ wideBaselineCalc.scale_max) := by
  refine ⟨rfl, ?_⟩
  intro hle
  rw [show (wideBaselineCalc.calculate {}).index = 200 from rfl] at hle
  norm_num [wideBaselineCalc] at hle

/-- C4 (amended): provided the configured baseline lies within
`[scale_min, scale_max]`, the index of every computed score lies within
`[scale_min, scale_max]`; and with zero items analyzed the index equals
the baseline and the label is No Data. -/
theorem C4_index_within_scale (c : LooshIndexCalculator) (a : AggregatedResult)
    (h1 : c.scale_min ≤ c.baseline) (h2 : c.baseline ≤ c.scale_max) :
    (c.scale_min ≤ (c.calculate a).index ∧ (c.calculate a).index ≤ c.scale_max) ∧
    (a.items_analyzed = 0 →
      (c.calculate a).index = c.baseline ∧ (c.calculate a).label = "No Data") := by
  by_cases h0 : a.items_analyzed = 0
  · rw [LooshIndexCalculator.calculate, if_pos h0]
    exact ⟨⟨h1, h2⟩, fun _ => ⟨rfl, rfl⟩⟩
  · rw [LooshIndexCalculator.calculate, if_neg h0]
    refine ⟨⟨le_max_left _ _, ?_⟩, fun h => absurd h h0⟩
    exact max_le (h1.trans h2) (min_le_left _ _)

/-- C4 witness: the default calculator (baseline 50, scale `[0, 100]`)
keeps both a zero-item score and a one-item score within the scale, and
returns baseline/No Data on the zero-item aggregate. -/
theorem C4_index_within_scale_witness :
    ((({} : LooshIndexCalculator).scale_min ≤ (({} : LooshIndexCalculator).calculate {}).index ∧
      (({} : LooshIndexCalculator).calculate {}).index ≤ ({} : LooshIndexCalculator).scale_max) ∧
     (({} : AggregatedResult).items_analyzed = 0 →
       (({} : LooshIndexCalculator).calculate {}).index = ({} : LooshIndexCalculator).baseline ∧
       (({} : LooshIndexCalculator).calculate {}).label = "No Data")) ∧
    (({} : LooshIndexCalculator).scale_min ≤
        (({} : LooshIndexCalculator).calculate oneItemAgg).index ∧
      (({} : LooshIndexCalculator).calculate oneItemAgg).index ≤
        ({} : LooshIndexCalculator).scale_max) :=
  ⟨C4_index_within_scale {} {} (show (0:ℚ) ≤ 50 by norm_num) (show (50:ℚ) ≤ 100 by norm_num),
   (C4_index_within_scale {} oneItemAgg (show (0:ℚ) ≤ 50 by norm_num)
     (show (50:ℚ) ≤ 100 by norm_num)).1⟩

/-- C3: for a non-empty aggregate whose emotion mapping is keyed by the
8 categories, when the source-weighted override does not apply (no
source breakdown or no configured source weights), the index is the
1-decimal rounding of `baseline + emotion_signal * sentiment_amplifier *
25` clamped to `[scale_min, scale_max]`, where the signal is the sum
over the 8 categories of fraction times configured polarity weight and
the amplifier is `1 + (negative - positive) * 0.5` over the corpus
sentiment means.  (The code rounds before clamping; for bounds that are
themselves exact at one decimal — such as the defaults 0 and 100 — this
order coincides with clamping before rounding.) -/
theorem C3_index_formula (c : LooshIndexCalculator) (a : AggregatedResult) (f : String → ℚ)
    (h0 : 0 < a.items_analyzed)
    (hemotions : a.emotions = EMOTION_CATEGORIES.map (fun e => (e, f e)))
    (hnoov : a.source_breakdown = [] ∨ c.source_weights = []) :
    (c.calculate a).index =
      max c.scale_min (min c.scale_max (pyRound 1 (c.baseline +
        ((EMOTION_CATEGORIES.map (fun e => f e * dictGet c.emotion_polarity e 0)).sum) *
        (1 + (dictGet a.sentiment "negative" 0 - dictGet a.sentiment "positive" 0) * (1 / 2)) *
        25))) := by
  have hne : ¬a.items_analyzed = 0 := Nat.pos_iff_ne_zero.mp h0
  have hov : ¬(a.source_breakdown ≠ [] ∧ c.source_weights ≠ []) := by
    rcases hnoov with h | h <;> simp [h]
  rw [LooshIndexCalculator.calculate, if_neg hne]
  simp only [if_neg hov, hemotions, List.map_map]
  rfl

/-- C3 witness: the default calculator on a one-item aggregate with the
uniform corpus emotion distribution and balanced sentiment. -/
theorem C3_index_formula_witness :
    ((LooshIndexCalculator.ofConfig {}).calculate oneItemAgg).index =
      max (LooshIndexCalculator.ofConfig {}).scale_min
        (min (LooshIndexCalculator.ofConfig {}).scale_max
          (pyRound 1 ((LooshIndexCalculator.ofConfig {}).baseline +
            ((EMOTION_CATEGORIES.map (fun e =>
              (1 : ℚ) / 8 * dictGet (LooshIndexCalculator.ofConfig {}).emotion_polarity e 0)).sum) *
            (1 + (dictGet oneItemAgg.sentiment "negative" 0 -
              dictGet oneItemAgg.sentiment "positive" 0) * (1 / 2)) * 25))) :=
  C3_index_formula (LooshIndexCalculator.ofConfig {}) oneItemAgg (fun _ => (1 : ℚ) / 8)
    (by decide) rfl (Or.inr rfl)

/-- On the non-empty branch with positive rounded-mean total, the
corpus emotion mapping is the map over the 8 categories of the 4-decimal
rounding of rounded-mean over total. -/
theorem aggregate_emotions_normalized (ag : Aggregator) (items : List CollectedItem)
    (sentiments : List SentimentResult) (emotions : List EmotionResult)
    (hne : items ≠ []) (hpos : 0 < emoTotal items emotions) :
    (ag.aggregate items sentiments emotions).emotions =
      EMOTION_CATEGORIES.map (fun e =>
        (e, pyRound 4 (rawEmotionAvg items emotions e / emoTotal items emotions))) := by
  rw [Aggregator.aggregate, if_neg hne]
  simp only [if_pos hpos, List.map_map]
  rfl

/-- For a single item, the per-category corpus average is the 4-decimal
rounding of that item's stored fraction. -/
theorem rawEmotionAvg_one_item (it : CollectedItem) (e : EmotionResult) (c : String) :
    rawEmotionAvg [it] [e] c = pyRound 4 (dictGet e.scores c 0) := by
  unfold rawEmotionAvg
  simp

theorem pyRound4_third : pyRound 4 ((1 : ℚ) / 3) = 3333 / 10000 := by
  norm_num [pyRound, pyRoundInt, round_eq]

theorem pyRound4_zero : pyRound 4 (0 : ℚ) = 0 := by
  norm_num [pyRound, pyRoundInt, round_eq]

/-- The rounded-mean total of the thirds distribution is 0.9999. -/
theorem emoTotal_thirds : emoTotal [testItem] [thirdsEmotion] = 9999 / 10000 := by
  have d1 : dictGet thirdsEmotion.scores "joy" 0 = 1 / 3 := rfl
  have d2 : dictGet thirdsEmotion.scores "anger" 0 = 1 / 3 := rfl
  have d3 : dictGet thirdsEmotion.scores "fear" 0 = 1 / 3 := rfl
  have d4 : dictGet thirdsEmotion.scores "sadness" 0 = 0 := rfl
  have d5 : dictGet thirdsEmotion.scores "surprise" 0 = 0 := rfl
  have d6 : dictGet thirdsEmotion.scores "disgust" 0 = 0 := rfl
  have d7 : dictGet thirdsEmotion.scores "trust" 0 = 0 := rfl
  have d8 : dictGet thirdsEmotion.scores "anticipation" 0 = 0 := rfl
  unfold emoTotal EMOTION_CATEGORIES
  simp only [List.map_cons, List.map_nil, List.sum_cons, List.sum_nil, rawEmotionAvg_one_item,
    d1, d2, d3, d4, d5, d6, d7, d8, pyRound4_third, pyRound4_zero]
  norm_num

/-- C6 counterexample: aggregating one item whose distribution puts 1/3
on each of joy, anger and fear yields corpus emotion values summing to
0.9999, not exactly 1 — the final per-category rounding to 4 decimal
places breaks the exactness the claim asserts. -/
theorem C6_rounded_sum_counterexample :
    ((({} : Aggregator).aggregate [testItem] [balancedSentiment] [thirdsEmotion]).emotions.map
      (fun p => p.2)).sum = 9999 / 10000 ∧ ((9999 : ℚ) / 10000) ≠ 1 := by
  have hpos : (0 : ℚ) < emoTotal [testItem] [thirdsEmotion] := by
    rw [emoTotal_thirds]
    norm_num
  have d1 : dictGet thirdsEmotion.scores "joy" 0 = 1 / 3 := rfl
  have d2 : dictGet thirdsEmotion.scores "anger" 0 = 1 / 3 := rfl
  have d3 : dictGet thirdsEmotion.scores "fear" 0 = 1 / 3 := rfl
  have d4 : dictGet thirdsEmotion.scores "sadness" 0 = 0 := rfl
  have d5 : dictGet thirdsEmotion.scores "surprise" 0 = 0 := rfl
  have d6 : dictGet thirdsEmotion.scores "disgust" 0 = 0 := rfl
  have d7 : dictGet thirdsEmotion.scores "trust" 0 = 0 := rfl
  have d8 : dictGet thirdsEmotion.scores "anticipation" 0 = 0 := rfl
  have hq3 : pyRound 4 ((3333 : ℚ) / 10000 / (9999 / 10000)) = 3333 / 10000 := by
    norm_num [pyRound, pyRoundInt, round_eq]
  have hq0 : pyRound 4 ((0 : ℚ) / (9999 / 10000)) = 0 := by
    norm_num [pyRound, pyRoundInt, round_eq]
  constructor
  · rw [aggregate_emotions_normalized {} [testItem] [balancedSentiment] [thirdsEmotion]
      (by decide) hpos]
    unfold EMOTION_CATEGORIES
    simp only [List.map_cons, List.map_nil, List.sum_cons, List.sum_nil, rawEmotionAvg_one_item,
      emoTotal_thirds, d1, d2, d3, d4, d5, d6, d7, d8, pyRound4_third, pyRound4_zero,
      hq3, hq0]
    norm_num
  · norm_num

/-- C6 (amended): for a non-empty input whose per-category rounded means
have positive total, the corpus emotion mapping assigns each category
the 4-decimal rounding of (its rounded mean divided by the total of the
rounded means); the renormalized quotients sum to exactly 1 before that
final per-category rounding (after it, the stored values can sum to
slightly less or more than 1). -/
theorem C6_renormalized_mean_emotions (ag : Aggregator) (items : List CollectedItem)
    (sentiments : List SentimentResult) (emotions : List EmotionResult)
    (hne : items ≠ []) (hpos : 0 < emoTotal items emotions) :
    (ag.aggregate items sentiments emotions).emotions =
      EMOTION_CATEGORIES.map (fun e =>
        (e, pyRound 4 (rawEmotionAvg items emotions e / emoTotal items emotions))) ∧
    (EMOTION_CATEGORIES.map (fun e =>
        rawEmotionAvg items emotions e / emoTotal items emotions)).sum = 1 := by
  constructor
  · exact aggregate_emotions_normalized ag items sentiments emotions hne hpos
  · rw [sum_map_div]
    exact div_self (ne_of_gt hpos)

/-- C6 witness: the one-item aggregate over the thirds distribution has
rounded-mean total 0.9999 > 0; its normalized pre-rounding quotients sum
to exactly 1 and the stored mapping is their 4-decimal rounding. -/
theorem C6_renormalized_mean_emotions_witness :
    ((({} : Aggregator).aggregate [testItem] [balancedSentiment] [thirdsEmotion]).emotions =
      EMOTION_CATEGORIES.map (fun e =>
        (e, pyRound 4 (rawEmotionAvg [testItem] [thirdsEmotion] e /
          emoTotal [testItem] [thirdsEmotion])))) ∧
    (EMOTION_CATEGORIES.map (fun e =>
        rawEmotionAvg [testItem] [thirdsEmotion] e / emoTotal [testItem] [thirdsEmotion])).sum = 1 :=
  C6_renormalized_mean_emotions {} [testItem] [balancedSentiment] [thirdsEmotion]
    (by decide)
    (by rw [emoTotal_thirds]; norm_num)

/-- C7 counterexample: on `happy hate war` (joy 1 hit, anger 2 hits,
total 3) the stored joy fraction is the 4-decimal rounding 0.3333, which
differs from the claimed exact quotient 1/3 of hit count over total
hits. -/
theorem C7_rounded_fraction_counterexample :
    dictGet (analyze_lexicon happyHateWar).scores "joy" 0 = 3333 / 10000 ∧
    ((3333 : ℚ) / 10000) ≠
      (emotionHits (findWords happyHateWar) "joy" : ℚ) /
        (totalHits (findWords happyHateWar) : ℚ) := by
  have ht : totalHits (findWords happyHateWar) = 3 := by decide
  have hj : emotionHits (findWords happyHateWar) "joy" = 1 := by decide
  constructor
  · unfold analyze_lexicon
    simp only [ht, hj]
    rw [dictGet_map_self]
    rw [if_pos (by decide : "joy" ∈ EMOTION_CATEGORIES)]
    norm_num [hj, pyRound, pyRoundInt, round_eq]
  · rw [ht, hj]
    norm_num

/-- C7 (amended): when no token hits the lexicon the distribution is
exactly uniform (1/8 per category) with the sentinel dominant label
`neutral`, which is none of the 8 categories; when at least one token
hits, each category's stored fraction is the 4-decimal rounding of its
hit count divided by the total hits, and the dominant label is the
argmax (first maximal entry) of the stored mapping. -/
theorem C7_lexicon_distribution :
    (∀ text : Str, totalHits (findWords text) = 0 →
      (analyze_lexicon text).scores = EMOTION_CATEGORIES.map (fun e => (e, (1 : ℚ) / 8)) ∧
      (analyze_lexicon text).dominant_emotion = "neutral" ∧
      "neutral" ∉ EMOTION_CATEGORIES) ∧
    (∀ text : Str, 0 < totalHits (findWords text) →
      (∀ e ∈ EMOTION_CATEGORIES, dictGet (analyze_lexicon text).scores e 0 =
        pyRound 4 ((emotionHits (findWords text) e : ℚ) / (totalHits (findWords text) : ℚ))) ∧
      (analyze_lexicon text).dominant_emotion = argmaxKey (analyze_lexicon text).scores) := by
  have h18 : pyRound 4 ((1 : ℚ) / 8) = 1 / 8 := by
    norm_num [pyRound, pyRoundInt, round_eq]
  constructor
  · intro text h
    refine ⟨?_, ?_, by decide⟩
    · unfold analyze_lexicon
      norm_num [h, EMOTION_CATEGORIES, h18]
    · unfold analyze_lexicon
      simp [h]
  · intro text h
    constructor
    · intro e he
      unfold analyze_lexicon
      simp only [h, if_true, if_pos]
      rw [dictGet_map_self, if_pos he]
    · unfold analyze_lexicon
      simp [h]

/-- C7 witness: the empty text has no hits and yields the exact uniform
distribution with dominant sentinel `neutral`; `happy hate war` has
three hits and stores the rounded fractions with the argmax dominant. -/
theorem C7_lexicon_distribution_witness :
    ((analyze_lexicon []).scores = EMOTION_CATEGORIES.map (fun e => (e, (1 : ℚ) / 8)) ∧
      (analyze_lexicon []).dominant_emotion = "neutral" ∧
      "neutral" ∉ EMOTION_CATEGORIES) ∧
    ((∀ e ∈ EMOTION_CATEGORIES, dictGet (analyze_lexicon happyHateWar).scores e 0 =
        pyRound 4 ((emotionHits (findWords happyHateWar) e : ℚ) /
          (totalHits (findWords happyHateWar) : ℚ))) ∧
      (analyze_lexicon happyHateWar).dominant_emotion =
        argmaxKey (analyze_lexicon happyHateWar).scores) :=
  ⟨C7_lexicon_distribution.1 [] (by decide), C7_lexicon_distribution.2 happyHateWar (by decide)⟩

/-- C9 counterexample: on the empty text (a per-item distribution with
no lexicon hits) the designated dominant label is the sentinel
`neutral`, which is not a key of the distribution at all — the argmax
with earliest-first tie-break over the uniform scores would be `joy` —
so the dominant is not the argmax, contradicting the unconditional
claim. -/
theorem C9_no_hit_dominant_not_argmax :
    (analyze_lexicon []).dominant_emotion = "neutral" ∧
    argmaxKey (analyze_lexicon []).scores = "joy" ∧
    (∀ p ∈ (analyze_lexicon []).scores, p.1 ≠ "neutral") := by
  have h18 : pyRound 4 ((1 : ℚ) / 8) = 1 / 8 := by
    norm_num [pyRound, pyRoundInt, round_eq]
  refine ⟨rfl, ?_, by decide⟩
  have hsc : (analyze_lexicon []).scores = EMOTION_CATEGORIES.map (fun e => (e, (1 : ℚ) / 8)) := by
    unfold analyze_lexicon
    norm_num [show totalHits (findWords []) = 0 from rfl, EMOTION_CATEGORIES, h18]
  rw [hsc]
  norm_num [argmaxKey, argmaxAux, EMOTION_CATEGORIES]

/-- C9 (amended): whenever a dominant is designated by the argmax — a
per-item distribution with at least one lexicon hit, or the corpus-wide
distribution of a non-empty aggregate — it is the first entry attaining
the maximal fraction, the entries being keyed by the fixed category
order joy, anger, fear, sadness, surprise, disgust, trust,
anticipation. -/
theorem C9_dominant_first_argmax :
    (∀ text : Str, 0 < totalHits (findWords text) →
      IsFirstArgmax (analyze_lexicon text).scores (analyze_lexicon text).dominant_emotion ∧
      (analyze_lexicon text).scores.map (fun p => p.1) = EMOTION_CATEGORIES) ∧
    (∀ (ag : Aggregator) (items : List CollectedItem) (sentiments : List SentimentResult)
        (emotions : List EmotionResult), items ≠ [] →
      IsFirstArgmax (ag.aggregate items sentiments emotions).emotions
        (ag.aggregate items sentiments emotions).dominant_emotion ∧
      (ag.aggregate items sentiments emotions).emotions.map (fun p => p.1) =
        EMOTION_CATEGORIES) := by
  constructor
  · intro text h
    have hd : (analyze_lexicon text).dominant_emotion = argmaxKey (analyze_lexicon text).scores := by
      unfold analyze_lexicon
      simp [h]
    constructor
    · rw [hd]
      apply argmaxKey_isFirstArgmax
      unfold analyze_lexicon
      simp [EMOTION_CATEGORIES]
    · unfold analyze_lexicon
      simp [List.map_map, Function.comp_def]
  · intro ag items sentiments emotions hne
    have hd : (ag.aggregate items sentiments emotions).dominant_emotion =
        argmaxKey (ag.aggregate items sentiments emotions).emotions := by
      rw [Aggregator.aggregate, if_neg hne]
    constructor
    · rw [hd]
      apply argmaxKey_isFirstArgmax
      rw [Aggregator.aggregate, if_neg hne]
      by_cases ht : 0 < emoTotal items emotions
      · simp [ht, EMOTION_CATEGORIES]
      · simp [ht, EMOTION_CATEGORIES]
    · rw [Aggregator.aggregate, if_neg hne]
      by_cases ht : 0 < emoTotal items emotions
      · simp [ht, List.map_map, EMOTION_CATEGORIES]
      · simp [ht, List.map_map, EMOTION_CATEGORIES]

/-- C9 witness: `happy hate war` yields dominant `anger` as the first
argmax of its stored distribution, and a one-item aggregate yields
dominant `joy` as the first argmax of the corpus distribution; both
distributions are keyed by the fixed category order. -/
theorem C9_dominant_first_argmax_witness :
    (IsFirstArgmax (analyze_lexicon happyHateWar).scores
        (analyze_lexicon happyHateWar).dominant_emotion ∧
      (analyze_lexicon happyHateWar).scores.map (fun p => p.1) = EMOTION_CATEGORIES) ∧
    (IsFirstArgmax
        (({} : Aggregator).aggregate [testItem] [balancedSentiment] [thirdsEmotion]).emotions
        (({} : Aggregator).aggregate [testItem] [balancedSentiment] [thirdsEmotion]).dominant_emotion ∧
      (({} : Aggregator).aggregate [testItem] [balancedSentiment] [thirdsEmotion]).emotions.map
        (fun p => p.1) = EMOTION_CATEGORIES) :=
  ⟨C9_dominant_first_argmax.1 happyHateWar (by decide),
   C9_dominant_first_argmax.2 {} [testItem] [balancedSentiment] [thirdsEmotion] (by decide)⟩

end LooshFarm
